import Mathlib

/-!
Shallow embedding of the Antigravity Router V1 decision engine
(`src/router_engine.py`, class `RouterEngineV1`).

The engine is a pure function from (ruleset, request) to a decision record.
Regex patterns from the ruleset are modelled as abstract matchers
`String → Bool` (the source joins a group's patterns with `|` and the
combined regex matches iff some pattern matches); string normalisation
(lowercase, strip, punctuation removal) is modelled at the ASCII level,
which covers every hard-coded phrase and keyword in the source.
Wall-clock fields of the decision (`timestamp`, `processing_time_ms`) are
omitted: they are nondeterministic telemetry and no claim concerns them.
Costs are modelled as exact rationals.
-/

namespace RouterV1

/-- The keys of the request's `metadata` dictionary that the engine reads:
`metadata.get("missing_slots", [])` and (nominally) `user_tier`. -/
structure Metadata where
  missing_slots : List String := []
  user_tier : Option String := none
  deriving DecidableEq

/-- The request dictionary `input_data`. Optional keys are `Option`s;
`text` defaults to `""` (`input_data.get("text", "")`).  A top-level
`user_tier` key is representable because `getRoute` passes the whole
`input_data` dictionary to `_calculate_risk`, which then reads
`user_tier` from it. -/
structure InputData where
  text : String := ""
  channel : Option String := none
  product : Option String := none
  user_tier : Option String := none
  metadata : Metadata := {}
  deriving DecidableEq

/-- One entry of `rules["intents"][category]`: a named pattern group.
Each pattern is an abstract compiled-regex matcher. -/
structure IntentItem where
  name : String
  patterns : List (String → Bool)

/-- One value of the `compiled_intents` dictionary built by
`_compile_regexes`. -/
structure CompiledIntent where
  regex : String → Bool
  category : String

/-- One value of `rules["channel_rules"]`: `risk_modifier` is accessed
unconditionally (`["risk_modifier"]`). -/
structure ChannelRule where
  risk_modifier : Int
  deriving DecidableEq

/-- One value of `rules["product_rules"]`: `risk_modifier` is read with
`.get("risk_modifier", 0)`, so it is optional; `min_category_if_not_static`
is probed in `getRoute` but the probing branch is a no-op (`pass`). -/
structure ProductRule where
  risk_modifier : Option Int := none
  min_category_if_not_static : Option String := none
  deriving DecidableEq

/-- The parsed ruleset `self.rules` (the JSON dictionaries become
association lists preserving key order). -/
structure Ruleset where
  intents : List (String × List IntentItem)
  channel_rules : List (String × ChannelRule)
  product_rules : List (String × ProductRule)
  thresholds_risk_high : Int
  max_cost_per_request_usd : Rat
  timeouts_ms : List (String × Int) := []

/-- Association-list lookup, i.e. Python `d[k]` / `k in d`. -/
def lookup {α : Type} (l : List (String × α)) (k : String) : Option α :=
  match l with
  | [] => none
  | (k', v) :: rest => if k' = k then some v else lookup rest k

/-- Python dict assignment `d[k] = v`: replaces in place if the key exists
(keeping its position), else appends. -/
def dictInsert (l : List (String × CompiledIntent)) (k : String) (v : CompiledIntent) :
    List (String × CompiledIntent) :=
  match l with
  | [] => [(k, v)]
  | (k', v') :: rest =>
      if k' = k then (k, v) :: rest else (k', v') :: dictInsert rest k v

/-- Inner loop of `_compile_regexes` over one category's intent list:
items with an empty pattern list are skipped (`if item["patterns"]:`);
the joined regex matches iff some pattern of the group matches. -/
def compileItems (category : String) (items : List IntentItem)
    (acc : List (String × CompiledIntent)) : List (String × CompiledIntent) :=
  match items with
  | [] => acc
  | item :: rest =>
      if item.patterns.isEmpty then compileItems category rest acc
      else
        compileItems category rest
          (dictInsert acc item.name
            ⟨fun t => item.patterns.any (fun p => p t), category⟩)

/-- `_compile_regexes`: builds the `compiled_intents` dictionary. -/
def compile_regexes (rules : Ruleset) : List (String × CompiledIntent) :=
  rules.intents.foldl (fun acc ci => compileItems ci.1 ci.2 acc) []

/-- Does the character list `l` begin with `pat`? -/
def listStartsWith : List Char → List Char → Bool
  | [], _ => true
  | _ :: _, [] => false
  | p :: ps, c :: cs => p = c && listStartsWith ps cs

/-- Does `pat` occur as a contiguous run inside the character list? -/
def listContains (pat : List Char) : List Char → Bool
  | [] => listStartsWith pat []
  | c :: cs => listStartsWith pat (c :: cs) || listContains pat cs

/-- Python `str.strip()`: remove leading and trailing whitespace.
(Implemented over the character list so proofs can evaluate it.) -/
def pyStrip (s : String) : String :=
  String.mk
    (((s.toList.dropWhile Char.isWhitespace).reverse.dropWhile
        Char.isWhitespace).reverse)

/-- Python `str.lower()` at the ASCII level. -/
def pyLower (s : String) : String :=
  String.mk (s.toList.map Char.toLower)

/-- Python `str.startswith(pat)`. -/
def strStartsWith (s pat : String) : Bool :=
  listStartsWith pat.toList s.toList

/-- Accumulating pass for `splitWords`. -/
def wordsAux (acc : List Char) : List Char → List String
  | [] => if acc.isEmpty then [] else [String.mk acc.reverse]
  | c :: cs =>
      if c.isWhitespace then
        if acc.isEmpty then wordsAux [] cs
        else String.mk acc.reverse :: wordsAux [] cs
      else wordsAux (c :: acc) cs

/-- Python `str.split()` with no argument: split on whitespace runs,
dropping empty fields. -/
def splitWords (s : String) : List String :=
  wordsAux [] s.toList

/-- `re.search` for a plain-text alternation branch: substring
containment. -/
def containsStr (s pat : String) : Bool :=
  listContains pat.toList s.toList

/-- First entry of the compiled-intents dictionary whose category is `cat`
and whose regex matches `text` (the per-category loops of `_match_intent`
iterate the whole dictionary in insertion order, filtering on category). -/
def findCat (ci : List (String × CompiledIntent)) (cat text : String) : Option String :=
  match ci with
  | [] => none
  | (name, d) :: rest =>
      if d.category = cat && d.regex text then some name else findCat rest cat text

/-- The conditional-marker regex `(si|depende|cuando)` of the
conversational loop. -/
def condMarkers : List String := ["si", "depende", "cuando"]

/-- `_match_intent(text, missing_slots) -> (intent, category, complexity)`.
Order of checks as in the source: missing slots, then static,
transactional, critical, conversational regex loops, then the word-count
fallback. -/
def match_intent (ci : List (String × CompiledIntent)) (text0 : String)
    (missing_slots : List String) : String × String × Int :=
  let text := pyStrip text0
  if missing_slots ≠ [] then ("slot_filling", "transactional", 10)
  else
    match findCat ci "static" text with
    | some name => (name, "static", 0)
    | none =>
      match findCat ci "transactional" text with
      | some name => (name, "transactional", 10)
      | none =>
        match findCat ci "critical" text with
        | some name => (name, "critical", 80)
        | none =>
          match findCat ci "conversational" text with
          | some name =>
              (name, "conversational",
                if condMarkers.any (fun k => containsStr text k) then 40 else 25)
          | none =>
              if (splitWords text).length > 7 then
                ("explanation_request", "conversational", 40)
              else ("unknown", "static", 0)

/-- The hard-keyword regex `(legal|laboral|medico|denuncia)` of
`_calculate_risk`. -/
def hard_keywords : List String := ["legal", "laboral", "medico", "denuncia"]

/-- `risk += rules["channel_rules"][channel]["risk_modifier"]` guarded by
`if channel in rules["channel_rules"]`. -/
def channelMod (rules : Ruleset) (channel : String) : Int :=
  match lookup rules.channel_rules channel with
  | some cr => cr.risk_modifier
  | none => 0

/-- `risk += rules["product_rules"][product].get("risk_modifier", 0)`
guarded by `if product in rules["product_rules"]`. -/
def productMod (rules : Ruleset) (product : String) : Int :=
  match lookup rules.product_rules product with
  | some pr => pr.risk_modifier.getD 0
  | none => 0

/-- Body of `_calculate_risk` before the final `min(risk, 100)` clamp.
The `metadata` parameter has type `InputData` because the only call site
(`getRoute`) passes the whole `input_data` dictionary, so `.get("channel")`,
`.get("product")` and `.get("user_tier")` read top-level request keys. -/
def calculate_risk_pre (rules : Ruleset) (text _intent category : String)
    (metadata : InputData) : Int :=
  let channel := metadata.channel.getD "web"
  let product := metadata.product.getD "generic"
  let risk : Int := 0
  let risk := risk + channelMod rules channel
  let risk := risk + productMod rules product
  let risk :=
    if category = "critical" then risk + 60
    else if category = "conversational" then risk + 20
    else risk
  let text_lower := pyLower text
  let risk :=
    if hard_keywords.any (fun k => containsStr text_lower k) then max risk 60 else risk
  let risk := if metadata.user_tier = some "enterprise" then risk + 20 else risk
  risk

/-- `_calculate_risk`: the additive model followed by `min(risk, 100)`.
There is no lower clamp in the source. -/
def calculate_risk (rules : Ruleset) (text intent category : String)
    (metadata : InputData) : Int :=
  min (calculate_risk_pre rules text intent category metadata) 100

/-- The decision record returned by `getRoute` (wall-clock fields
omitted, see module comment). -/
structure Decision where
  input_preview : String
  channel : String
  engine_used : String
  intent : String
  category : String
  complexity_score : Int
  risk_score : Int
  route_selected : String
  estimated_cost : Rat
  fallback_used : Bool
  note : Option String := none
  deriving DecidableEq

/-- `text[:50]`. -/
def takePreview (text : String) : String :=
  String.mk (text.toList.take 50)

/-- The literal `0.0001` used by every terminal decision and by the
financial-guardrail fallback: the static-route floor cost. -/
def floorCost : Rat := mkRat 1 10000

/-- Rule C condition: `channel == "voice" and (not text or
len(text.strip()) < 10)`. -/
def ruleC_fires (input : InputData) : Bool :=
  input.channel.getD "web" = "voice" &&
    (input.text = "" || (pyStrip input.text).length < 10)

/-- Rule B condition: `missing_slots and len(missing_slots) > 0`. -/
def ruleB_fires (input : InputData) : Bool :=
  !input.metadata.missing_slots.isEmpty

/-- The hard-coded `free_patterns` list of Rule A. -/
def free_patterns : List String :=
  ["hola", "buenas", "buenos dias", "buenas tardes", "buenas noches",
   "chau", "adios", "hasta luego", "gracias", "muchas gracias",
   "ok", "dale", "listo", "bueno", "perfecto", "genial",
   "si", "no", "claro", "exacto", "correcto", "asi es",
   "precio", "precios", "info", "ayuda", "menu", "salir"]

/-- Python regex class `\w` union `\s` at the ASCII level: the characters
kept by `re.sub(r"[^\w\s]", "", ·)`. -/
def isWordOrSpace (c : Char) : Bool :=
  c.isAlphanum || c = '_' || c.isWhitespace

/-- `text_clean`: lowercase, strip, then remove punctuation. -/
def text_clean_of (text : String) : String :=
  let text_lower := pyStrip (pyLower text)
  String.mk (text_lower.toList.filter isWordOrSpace)

/-- Rule A condition `is_free`: exact match against `free_patterns`, else
short (< 20 chars) and starting with a free pattern. -/
def is_free (text : String) : Bool :=
  let text_clean := text_clean_of text
  if text_clean ∈ free_patterns then true
  else if text_clean.length < 20 ∧ ∃ p ∈ free_patterns, strStartsWith text_clean p then
    true
  else false

/-- Terminal decision of Rule C (voice aggressive filter). -/
def voiceNoiseDecision (channel : String) : Decision :=
  { input_preview := "voice_noise", channel := channel,
    engine_used := "rules_engine", intent := "silence_or_noise",
    category := "static", complexity_score := 0, risk_score := 0,
    route_selected := "ANTIGRAVITY", estimated_cost := floorCost,
    fallback_used := false, note := some "Rule C: Voice Aggressive Filter" }

/-- Terminal decision of Rule B (strict slot filling). -/
def slotFillingDecision (text channel : String) : Decision :=
  { input_preview := takePreview text, channel := channel,
    engine_used := "rules_engine", intent := "slot_filling",
    category := "transactional", complexity_score := 10, risk_score := 0,
    route_selected := "ANTIGRAVITY", estimated_cost := floorCost,
    fallback_used := false, note := some "Rule B: Strict Slot Filling" }

/-- Terminal decision of Rule A (global free patterns). -/
def freePatternDecision (text channel : String) : Decision :=
  { input_preview := takePreview text, channel := channel,
    engine_used := "rules_engine", intent := "quick_confirmation",
    category := "static", complexity_score := 0, risk_score := 0,
    route_selected := "ANTIGRAVITY", estimated_cost := floorCost,
    fallback_used := false, note := some "Rule A: Global Free Patterns" }

/-- The `(intent, category, complexity_score)` triple computed by step 1
of `getRoute` on the main path. -/
def classifyOf (rules : Ruleset) (input : InputData) : String × String × Int :=
  match_intent (compile_regexes rules) input.text input.metadata.missing_slots

/-- Step 3 of `getRoute`: `self._calculate_risk(text, intent, category,
input_data)` — note the whole request dictionary is passed. -/
def riskOf (rules : Ruleset) (input : InputData) : Int :=
  calculate_risk rules input.text (classifyOf rules input).1
    (classifyOf rules input).2.1 input

/-- Step 4 of `getRoute`: the category → route base mapping. -/
def baseRouteOf (category : String) : String :=
  if category = "static" then "ANTIGRAVITY"
  else if category = "transactional" then "ANTIGRAVITY"
  else if category = "conversational" then "DEEPSEEK"
  else if category = "critical" then "DEEPSEEK_THEN_GPT5"
  else "ANTIGRAVITY"

/-- Step 5 of `getRoute`: per-route cost estimate (`estimated_cost`
starts at `0.0` and the if/elif chain overrides it). -/
def routeCost (target : String) : Rat :=
  if target = "ANTIGRAVITY" then 0
  else if target = "DEEPSEEK" then mkRat 2 1000
  else if target = "DEEPSEEK_THEN_GPT5" then mkRat 25 1000
  else 0

/-- The route after the risk-escalation override and before the financial
guardrail (`target` in the source). -/
def preGuardTarget (rules : Ruleset) (input : InputData) : String :=
  if riskOf rules input ≥ rules.thresholds_risk_high then "DEEPSEEK_THEN_GPT5"
  else baseRouteOf (classifyOf rules input).2.1

/-- The category after the risk-escalation override (`category = "critical"`
is forced alongside the route override). -/
def finalCategoryOf (rules : Ruleset) (input : InputData) : String :=
  if riskOf rules input ≥ rules.thresholds_risk_high then "critical"
  else (classifyOf rules input).2.1

/-- `getRoute(input_data)`: the three hard rules in source order, then
intent detection, risk calculation, base routing, risk escalation and the
financial guardrail.  (The product-rule probe between steps 1 and 3 of the
source is a no-op — its innermost branch is `pass` — and the computed
`max_timeout` is never used, so neither appears here.) -/
def getRoute (rules : Ruleset) (input : InputData) : Decision :=
  let text := input.text
  let channel := input.channel.getD "web"
  if ruleC_fires input then voiceNoiseDecision channel
  else if ruleB_fires input then slotFillingDecision text channel
  else if is_free text then freePatternDecision text channel
  else
    let intent := (classifyOf rules input).1
    let complexity_score := (classifyOf rules input).2.2
    let category := finalCategoryOf rules input
    let risk_score := riskOf rules input
    let target := preGuardTarget rules input
    let estimated_cost := routeCost target
    if estimated_cost > rules.max_cost_per_request_usd then
      { input_preview := takePreview text, channel := channel,
        engine_used := "rules_engine", intent := intent,
        category := category, complexity_score := complexity_score,
        risk_score := risk_score, route_selected := "ANTIGRAVITY",
        estimated_cost := floorCost, fallback_used := true }
    else
      { input_preview := takePreview text, channel := channel,
        engine_used := "rules_engine", intent := intent,
        category := category, complexity_score := complexity_score,
        risk_score := risk_score, route_selected := target,
        estimated_cost := estimated_cost, fallback_used := false }

/-- Some pattern group of category `cat` in the compiled dictionary
matches `text`. -/
def catMatches (ci : List (String × CompiledIntent)) (cat text : String) : Bool :=
  ci.any (fun p => p.2.category = cat && p.2.regex text)

/-! Concrete rulesets and requests used to instantiate the theorems. -/

/-- A minimal ruleset: no intents, no modifiers, `thresholds.risk.high = 70`,
cost ceiling 1 USD. -/
def exRules : Ruleset :=
  { intents := [], channel_rules := [], product_rules := [],
    thresholds_risk_high := 70, max_cost_per_request_usd := 1 }

/-- Like `exRules` but with a cost ceiling of 0.001 USD, below the
DEEPSEEK cost estimate. -/
def exGuardRules : Ruleset :=
  { intents := [], channel_rules := [], product_rules := [],
    thresholds_risk_high := 70, max_cost_per_request_usd := mkRat 1 1000 }

/-- Like `exRules` but with a low escalation threshold
(`thresholds.risk.high = 10`). -/
def exEscalRules : Ruleset :=
  { intents := [], channel_rules := [], product_rules := [],
    thresholds_risk_high := 10, max_cost_per_request_usd := 1 }

/-- A ruleset whose `web` channel rule carries a negative risk modifier
(the spec allows negative modifiers). -/
def exNegRules : Ruleset :=
  { intents := [], channel_rules := [("web", ⟨-5⟩)], product_rules := [],
    thresholds_risk_high := 70, max_cost_per_request_usd := 1 }

/-- A ruleset with one static and one critical pattern group. -/
def exIntentRules : Ruleset :=
  { intents :=
      [("static", [⟨"greeting", [fun t => containsStr t "hola"]⟩]),
       ("critical", [⟨"complaint", [fun t => containsStr t "denunciar"]⟩])],
    channel_rules := [], product_rules := [],
    thresholds_risk_high := 70, max_cost_per_request_usd := 1 }

/-- An eight-word utterance matching no pattern: classified
`explanation_request`/`conversational` on the fallback path. -/
def exLongInput : InputData := { text := "t1 t2 t3 t4 t5 t6 t7 t8" }

/-- `exLongInput` with `metadata.user_tier = "enterprise"` (and no
top-level `user_tier` key). -/
def exLongMetaTierInput : InputData :=
  { text := "t1 t2 t3 t4 t5 t6 t7 t8",
    metadata := { user_tier := some "enterprise" } }

/-- A short voice request. -/
def exVoiceInput : InputData := { text := "uh", channel := some "voice" }

/-- An empty voice request with a missing slot. -/
def exVoiceSlotInput : InputData :=
  { text := "", channel := some "voice",
    metadata := { missing_slots := ["date"] } }

/-- A web request with a missing slot. -/
def exSlotInput : InputData :=
  { text := "necesito agendar", metadata := { missing_slots := ["date"] } }

/-- A bare greeting. -/
def exHolaInput : InputData := { text := "hola" }

/-- A three-word utterance matching nothing, no keyword, no free pattern. -/
def exShortInput : InputData := { text := "x y z" }

/-- A six-word utterance containing the hard keyword `legal`. -/
def exLegalInput : InputData :=
  { text := "necesito asesoria legal urgente por favor" }

/-! Supporting lemmas. -/

/-- A successful association-list lookup returns a stored binding. -/
theorem lookup_mem {α : Type} {l : List (String × α)} {k : String} {v : α}
    (h : lookup l k = some v) : (k, v) ∈ l := by
  induction l with
  | nil => simp [lookup] at h
  | cons hd tl ih =>
    rcases hd with ⟨k', v'⟩
    by_cases hk : k' = k
    · subst hk
      simp [lookup] at h
      subst h
      exact List.mem_cons_self _ _
    · simp only [lookup, if_neg hk] at h
      exact List.mem_cons_of_mem _ (ih h)

/-- `findCat` succeeds exactly when some group of that category matches. -/
theorem findCat_none_iff (ci : List (String × CompiledIntent)) (cat text : String) :
    findCat ci cat text = none ↔ catMatches ci cat text = false := by
  induction ci with
  | nil => simp [findCat, catMatches]
  | cons hd tl ih =>
    rcases hd with ⟨name, d⟩
    by_cases h : (d.category = cat && d.regex text) = true
    · simp [findCat, catMatches, h]
    · simp only [findCat, catMatches, List.any_cons] at *
      rw [if_neg (by simpa using h)]
      simp only [Bool.or_eq_false_iff]
      constructor
      · intro hn
        exact ⟨by simpa using h, (ih.mp hn)⟩
      · intro hn
        exact ih.mpr hn.2

/-- C5: for a `voice` request whose text is empty or whose stripped text is
shorter than 10 characters, `getRoute` returns the terminal silence
decision: intent `silence_or_noise`, category `static`, route
`ANTIGRAVITY`, risk 0, no fallback — and the result does not depend on the
ruleset at all, reflecting that intent matching and risk scoring never
run. -/
theorem voice_silence_filter (rules : Ruleset) (input : InputData)
    (hch : input.channel = some "voice")
    (hshort : input.text = "" ∨ (pyStrip input.text).length < 10) :
    (getRoute rules input).intent = "silence_or_noise" ∧
      (getRoute rules input).category = "static" ∧
      (getRoute rules input).route_selected = "ANTIGRAVITY" ∧
      (getRoute rules input).risk_score = 0 ∧
      (getRoute rules input).fallback_used = false ∧
      ∀ rules2 : Ruleset, getRoute rules2 input = getRoute rules input := by
  have hfire : ruleC_fires input = true := by
    unfold ruleC_fires
    rcases hshort with h | h <;> simp [hch, h]
  unfold getRoute
  simp [hfire, voiceNoiseDecision]

/-- C5 witness: a concrete short voice request. -/
theorem voice_silence_filter_witness :
    (getRoute exRules exVoiceInput).intent = "silence_or_noise" ∧
      (getRoute exRules exVoiceInput).category = "static" ∧
      (getRoute exRules exVoiceInput).route_selected = "ANTIGRAVITY" ∧
      (getRoute exRules exVoiceInput).risk_score = 0 ∧
      (getRoute exRules exVoiceInput).fallback_used = false := by
  have h := voice_silence_filter exRules exVoiceInput rfl (Or.inr (by decide))
  exact ⟨h.1, h.2.1, h.2.2.1, h.2.2.2.1, h.2.2.2.2.1⟩

/-- C4 counterexample: a request with a non-empty `missing_slots` on the
`voice` channel with empty text is caught by the silence filter first, so
its category is `static`, not `transactional` — the claim's "regardless of
channel" fails. -/
theorem slots_counterexample :
    exVoiceSlotInput.metadata.missing_slots ≠ [] ∧
      (getRoute exRules exVoiceSlotInput).intent = "silence_or_noise" ∧
      (getRoute exRules exVoiceSlotInput).category ≠ "transactional" := by
  decide

/-- C4 amended: provided the voice silence filter does not fire, a request
with non-empty `missing_slots` gets category `transactional` and route
`ANTIGRAVITY`, regardless of text content. -/
theorem slots_force_transactional (rules : Ruleset) (input : InputData)
    (hC : ruleC_fires input = false)
    (hslots : input.metadata.missing_slots ≠ []) :
    (getRoute rules input).category = "transactional" ∧
      (getRoute rules input).route_selected = "ANTIGRAVITY" := by
  have hB : ruleB_fires input = true := by
    unfold ruleB_fires
    simp [hslots]
  unfold getRoute
  simp [hC, hB, slotFillingDecision]

/-- C4 witness: a concrete web request with a missing slot. -/
theorem slots_force_transactional_witness :
    (getRoute exRules exSlotInput).category = "transactional" ∧
      (getRoute exRules exSlotInput).route_selected = "ANTIGRAVITY" :=
  slots_force_transactional exRules exSlotInput (by decide) (by decide)

/-- C1: on the routing path (no override rule fired), if the estimated
cost of the chosen route exceeds `max_cost_per_request_usd`, the final
decision has route `ANTIGRAVITY`, `fallback_used = true` and the
static-route floor cost; the guardrail is the last step of `getRoute`, so
this is a statement about the returned decision. -/
theorem financial_guardrail (rules : Ruleset) (input : InputData)
    (hC : ruleC_fires input = false) (hB : ruleB_fires input = false)
    (hA : is_free input.text = false)
    (hcost : routeCost (preGuardTarget rules input) >
      rules.max_cost_per_request_usd) :
    (getRoute rules input).route_selected = "ANTIGRAVITY" ∧
      (getRoute rules input).fallback_used = true ∧
      (getRoute rules input).estimated_cost = floorCost := by
  unfold getRoute
  simp [hC, hB, hA, hcost]

/-- C1 witness: an unmatched eight-word utterance routes to DEEPSEEK
(cost 0.002) under a 0.001 ceiling, triggering the guardrail. -/
theorem financial_guardrail_witness :
    (getRoute exGuardRules exLongInput).route_selected = "ANTIGRAVITY" ∧
      (getRoute exGuardRules exLongInput).fallback_used = true ∧
      (getRoute exGuardRules exLongInput).estimated_cost = floorCost :=
  financial_guardrail exGuardRules exLongInput (by decide) (by decide)
    (by decide) (by decide)

/-- C6 counterexample: the free-pattern fast path does not return zero
cost — the terminal decision carries the floor cost `0.0001`, which is
nonzero. -/
theorem free_pattern_cost_counterexample :
    is_free "hola" = true ∧
      (getRoute exRules exHolaInput).intent = "quick_confirmation" ∧
      (getRoute exRules exHolaInput).estimated_cost = floorCost ∧
      (getRoute exRules exHolaInput).estimated_cost ≠ 0 := by
  decide

/-- C6 amended: when neither the silence filter nor slot filling applies
and the normalized text exactly equals a free phrase, or is shorter than
20 characters and starts with one, `getRoute` returns the terminal
quick-confirmation decision with zero risk and the floor cost `0.0001`
(not zero cost). -/
theorem free_pattern_fast_path (rules : Ruleset) (input : InputData)
    (hC : ruleC_fires input = false) (hB : ruleB_fires input = false)
    (hfree : text_clean_of input.text ∈ free_patterns ∨
      ((text_clean_of input.text).length < 20 ∧
        ∃ p ∈ free_patterns, strStartsWith (text_clean_of input.text) p)) :
    (getRoute rules input).intent = "quick_confirmation" ∧
      (getRoute rules input).category = "static" ∧
      (getRoute rules input).route_selected = "ANTIGRAVITY" ∧
      (getRoute rules input).risk_score = 0 ∧
      (getRoute rules input).estimated_cost = floorCost := by
  have hA : is_free input.text = true := by
    unfold is_free
    rcases hfree with h | h
    · simp [h]
    · by_cases hmem : text_clean_of input.text ∈ free_patterns
      · simp [hmem]
      · simp [hmem, h.1, h.2]
  unfold getRoute
  simp [hC, hB, hA, freePatternDecision]

/-- C6 witness: the bare greeting `hola`. -/
theorem free_pattern_fast_path_witness :
    (getRoute exRules exHolaInput).intent = "quick_confirmation" ∧
      (getRoute exRules exHolaInput).category = "static" ∧
      (getRoute exRules exHolaInput).route_selected = "ANTIGRAVITY" ∧
      (getRoute exRules exHolaInput).risk_score = 0 ∧
      (getRoute exRules exHolaInput).estimated_cost = floorCost :=
  free_pattern_fast_path exRules exHolaInput (by decide) (by decide)
    (Or.inl (by decide))

/-- Helper: the base category → route mapping only produces the three
engine routes. -/
theorem baseRouteOf_cases (category : String) :
    baseRouteOf category = "ANTIGRAVITY" ∨ baseRouteOf category = "DEEPSEEK" ∨
      baseRouteOf category = "DEEPSEEK_THEN_GPT5" := by
  unfold baseRouteOf
  split_ifs <;> simp

/-- C10: whatever the ruleset and the request, the decision's route is one
of `ANTIGRAVITY`, `DEEPSEEK`, `DEEPSEEK_THEN_GPT5`; in particular the
engine never produces `GOOGLE` (that label exists only in the gateway's
dispatch table). -/
theorem route_selected_cases (rules : Ruleset) (input : InputData) :
    ((getRoute rules input).route_selected = "ANTIGRAVITY" ∨
      (getRoute rules input).route_selected = "DEEPSEEK" ∨
      (getRoute rules input).route_selected = "DEEPSEEK_THEN_GPT5") ∧
      (getRoute rules input).route_selected ≠ "GOOGLE" := by
  have hmain : (getRoute rules input).route_selected = "ANTIGRAVITY" ∨
      (getRoute rules input).route_selected = "DEEPSEEK" ∨
      (getRoute rules input).route_selected = "DEEPSEEK_THEN_GPT5" := by
    have htarget : preGuardTarget rules input = "DEEPSEEK_THEN_GPT5" ∨
        preGuardTarget rules input =
          baseRouteOf (classifyOf rules input).2.1 := by
      unfold preGuardTarget
      split_ifs <;> simp
    unfold getRoute
    by_cases h1 : ruleC_fires input = true
    · simp [h1, voiceNoiseDecision]
    · by_cases h2 : ruleB_fires input = true
      · simp [h1, h2, slotFillingDecision]
      · by_cases h3 : is_free input.text = true
        · simp [h1, h2, h3, freePatternDecision]
        · by_cases h4 : rules.max_cost_per_request_usd <
              routeCost (preGuardTarget rules input)
          · simp [h1, h2, h3, h4]
          · rcases htarget with h | h
            · simp only [h1, h2, h3, h, if_neg, if_false]
              simp [h]
              split_ifs <;> simp
            · rcases baseRouteOf_cases (classifyOf rules input).2.1 with
                hb | hb | hb <;>
                · simp [h1, h2, h3, h, hb]
                  split_ifs <;> simp
  refine ⟨hmain, ?_⟩
  rcases hmain with h | h | h <;> rw [h] <;> decide

/-- Helper: with nonnegative channel modifiers, the channel term is
nonnegative. -/
theorem channelMod_nonneg (rules : Ruleset) (channel : String)
    (hchan : ∀ p ∈ rules.channel_rules, 0 ≤ p.2.risk_modifier) :
    0 ≤ channelMod rules channel := by
  unfold channelMod
  cases hl : lookup rules.channel_rules channel with
  | none => simp
  | some cr => simpa using hchan (channel, cr) (lookup_mem hl)

/-- Helper: with nonnegative product modifiers, the product term is
nonnegative. -/
theorem productMod_nonneg (rules : Ruleset) (product : String)
    (hprod : ∀ p ∈ rules.product_rules, 0 ≤ p.2.risk_modifier.getD 0) :
    0 ≤ productMod rules product := by
  unfold productMod
  cases hl : lookup rules.product_rules product with
  | none => simp
  | some pr => simpa using hprod (product, pr) (lookup_mem hl)

/-- Helper: the pre-clamp risk is nonnegative when every configured
modifier is nonnegative. -/
theorem calculate_risk_pre_nonneg (rules : Ruleset)
    (text intent category : String) (md : InputData)
    (hchan : ∀ p ∈ rules.channel_rules, 0 ≤ p.2.risk_modifier)
    (hprod : ∀ p ∈ rules.product_rules, 0 ≤ p.2.risk_modifier.getD 0) :
    0 ≤ calculate_risk_pre rules text intent category md := by
  have hc := channelMod_nonneg rules (md.channel.getD "web") hchan
  have hp := productMod_nonneg rules (md.product.getD "generic") hprod
  unfold calculate_risk_pre
  dsimp only
  split_ifs <;> omega

/-- C2 counterexample: with a negative channel modifier (which the spec
explicitly allows), the decision's risk score is negative — the source
clamps only from above (`min(risk, 100)`), never from below. -/
theorem risk_bounds_counterexample :
    (getRoute exNegRules exShortInput).risk_score = -5 ∧
      ¬ 0 ≤ (getRoute exNegRules exShortInput).risk_score := by
  decide

/-- C2 amended: the risk score is always at most 100 (for every ruleset
and request, negative modifiers included), and it is additionally
nonnegative — hence in `[0, 100]` — whenever every configured channel and
product risk modifier is nonnegative. -/
theorem risk_score_bounds (rules : Ruleset) (input : InputData) :
    (getRoute rules input).risk_score ≤ 100 ∧
      ((∀ p ∈ rules.channel_rules, 0 ≤ p.2.risk_modifier) →
        (∀ p ∈ rules.product_rules, 0 ≤ p.2.risk_modifier.getD 0) →
        0 ≤ (getRoute rules input).risk_score) := by
  have hub : riskOf rules input ≤ 100 := by
    unfold riskOf calculate_risk
    omega
  have hlb : (∀ p ∈ rules.channel_rules, 0 ≤ p.2.risk_modifier) →
      (∀ p ∈ rules.product_rules, 0 ≤ p.2.risk_modifier.getD 0) →
      0 ≤ riskOf rules input := by
    intro hchan hprod
    have hpre := calculate_risk_pre_nonneg rules input.text
      (classifyOf rules input).1 (classifyOf rules input).2.1 input hchan hprod
    unfold riskOf calculate_risk
    omega
  unfold getRoute
  by_cases h1 : ruleC_fires input = true
  · simp [h1, voiceNoiseDecision]
  · by_cases h2 : ruleB_fires input = true
    · simp [h1, h2, slotFillingDecision]
    · by_cases h3 : is_free input.text = true
      · simp [h1, h2, h3, freePatternDecision]
      · by_cases h4 : rules.max_cost_per_request_usd <
            routeCost (preGuardTarget rules input) <;>
          exact ⟨by simpa [h1, h2, h3, h4] using hub,
            fun hchan hprod => by
              simpa [h1, h2, h3, h4] using hlb hchan hprod⟩

/-- C2 witness: both bounds at a concrete request; the empty ruleset has
no (hence no negative) modifiers, discharging the lower-bound
hypotheses. -/
theorem risk_score_bounds_witness :
    (getRoute exRules exShortInput).risk_score ≤ 100 ∧
      0 ≤ (getRoute exRules exShortInput).risk_score := by
  have h := risk_score_bounds exRules exShortInput
  exact ⟨h.1, h.2 (by simp [exRules]) (by simp [exRules])⟩

/-- Helper: a hard keyword in the text forces a clamped risk of at
least 60, whatever the other terms contribute. -/
theorem calculate_risk_keyword_floor (rules : Ruleset)
    (text intent category : String) (md : InputData)
    (hkw : hard_keywords.any (fun k => containsStr (pyLower text) k) = true) :
    60 ≤ calculate_risk rules text intent category md := by
  unfold calculate_risk calculate_risk_pre
  dsimp only
  simp only [hkw, if_true]
  split_ifs <;> omega

/-- C7: on the scoring path (no override fired), a text containing one of
the configured high-stakes keywords yields a decision risk score of at
least 60 — the keyword contribution is a floor applied after the additive
terms, so it holds even when those terms sum below 60. -/
theorem keyword_risk_floor (rules : Ruleset) (input : InputData)
    (hC : ruleC_fires input = false) (hB : ruleB_fires input = false)
    (hA : is_free input.text = false)
    (hkw : hard_keywords.any
      (fun k => containsStr (pyLower input.text) k) = true) :
    60 ≤ (getRoute rules input).risk_score := by
  have h := calculate_risk_keyword_floor rules input.text
    (classifyOf rules input).1 (classifyOf rules input).2.1 input hkw
  have hr : 60 ≤ riskOf rules input := by
    unfold riskOf
    exact h
  unfold getRoute
  by_cases h4 : rules.max_cost_per_request_usd <
      routeCost (preGuardTarget rules input) <;>
    simpa [hC, hB, hA, h4] using hr

/-- C7 witness: a six-word utterance containing `legal` with the empty
ruleset: every additive term is 0, yet the risk score is 60. -/
theorem keyword_risk_floor_witness :
    60 ≤ (getRoute exRules exLegalInput).risk_score :=
  keyword_risk_floor exRules exLegalInput (by decide) (by decide)
    (by decide) (by decide)

/-- C8 counterexample: two requests identical except for
`metadata.user_tier = "enterprise"` get the same risk score (20, from the
conversational base) — the engine passes the whole request dictionary to
`_calculate_risk`, so the tier is read from the top level of the request,
not from `metadata`. -/
theorem enterprise_tier_counterexample :
    exLongMetaTierInput =
      { exLongInput with
        metadata :=
          { exLongInput.metadata with user_tier := some "enterprise" } } ∧
      (getRoute exRules exLongMetaTierInput).risk_score = 20 ∧
      (getRoute exRules exLongInput).risk_score = 20 := by
  decide

/-- C8 amended: the +20 enterprise bonus is driven by the request's
top-level `user_tier` key (because `getRoute` passes `input_data` itself
as the scorer's metadata): setting it to `enterprise`, all else fixed,
raises the pre-clamp risk by exactly 20; it is applied after the keyword
floor and before the upper clamp. -/
theorem enterprise_tier_bonus (rules : Ruleset)
    (text intent category : String) (md : InputData)
    (h : md.user_tier ≠ some "enterprise") :
    calculate_risk_pre rules text intent category
        { md with user_tier := some "enterprise" } =
      calculate_risk_pre rules text intent category md + 20 := by
  unfold calculate_risk_pre
  simp [h]

/-- C8 witness: the bonus at a concrete request without the tier. -/
theorem enterprise_tier_bonus_witness :
    calculate_risk_pre exRules "x" "unknown" "static"
        { exShortInput with user_tier := some "enterprise" } =
      calculate_risk_pre exRules "x" "unknown" "static" exShortInput + 20 :=
  enterprise_tier_bonus exRules "x" "unknown" "static" exShortInput
    (by decide)

/-- C9: on the routing path, a risk score at or above
`thresholds.risk.high` forces category `critical`, and the route is
`DEEPSEEK_THEN_GPT5` unless the financial guardrail then forces
`ANTIGRAVITY` (the category stays `critical` either way). -/
theorem high_risk_escalation (rules : Ruleset) (input : InputData)
    (hC : ruleC_fires input = false) (hB : ruleB_fires input = false)
    (hA : is_free input.text = false)
    (hrisk : rules.thresholds_risk_high ≤ riskOf rules input) :
    (getRoute rules input).category = "critical" ∧
      (getRoute rules input).route_selected =
        (if routeCost "DEEPSEEK_THEN_GPT5" > rules.max_cost_per_request_usd
          then "ANTIGRAVITY" else "DEEPSEEK_THEN_GPT5") := by
  have htarget : preGuardTarget rules input = "DEEPSEEK_THEN_GPT5" := by
    unfold preGuardTarget
    exact if_pos hrisk
  have hcat : finalCategoryOf rules input = "critical" := by
    unfold finalCategoryOf
    exact if_pos hrisk
  unfold getRoute
  by_cases h4 : rules.max_cost_per_request_usd <
      routeCost "DEEPSEEK_THEN_GPT5" <;>
    simp [hC, hB, hA, htarget, hcat, h4]

/-- C9 witness: with `thresholds.risk.high = 10` an unmatched eight-word
utterance (conversational base risk 20) escalates to `critical` and
`DEEPSEEK_THEN_GPT5` (guardrail idle under a 1 USD ceiling). -/
theorem high_risk_escalation_witness :
    (getRoute exEscalRules exLongInput).category = "critical" ∧
      (getRoute exEscalRules exLongInput).route_selected =
        (if routeCost "DEEPSEEK_THEN_GPT5" >
            exEscalRules.max_cost_per_request_usd
          then "ANTIGRAVITY" else "DEEPSEEK_THEN_GPT5") :=
  high_risk_escalation exEscalRules exLongInput (by decide) (by decide)
    (by decide) (by decide)

/-- C3: with no missing slots, the matched category is the first of
static, transactional, critical, conversational with a matching pattern
group (so a text matching both a static and a critical pattern is
classified static); when nothing matches, texts over 7 words become
`explanation_request`/`conversational` with complexity 40 and the rest
`unknown`/`static` with complexity 0. -/
theorem match_intent_priority (rules : Ruleset) (text : String) :
    (catMatches (compile_regexes rules) "static" (pyStrip text) = true →
      (match_intent (compile_regexes rules) text []).2.1 = "static") ∧
    (catMatches (compile_regexes rules) "static" (pyStrip text) = false →
      catMatches (compile_regexes rules) "transactional" (pyStrip text) = true →
      (match_intent (compile_regexes rules) text []).2.1 = "transactional") ∧
    (catMatches (compile_regexes rules) "static" (pyStrip text) = false →
      catMatches (compile_regexes rules) "transactional" (pyStrip text) = false →
      catMatches (compile_regexes rules) "critical" (pyStrip text) = true →
      (match_intent (compile_regexes rules) text []).2.1 = "critical") ∧
    (catMatches (compile_regexes rules) "static" (pyStrip text) = false →
      catMatches (compile_regexes rules) "transactional" (pyStrip text) = false →
      catMatches (compile_regexes rules) "critical" (pyStrip text) = false →
      catMatches (compile_regexes rules) "conversational" (pyStrip text) = true →
      (match_intent (compile_regexes rules) text []).2.1 = "conversational") ∧
    (catMatches (compile_regexes rules) "static" (pyStrip text) = false →
      catMatches (compile_regexes rules) "transactional" (pyStrip text) = false →
      catMatches (compile_regexes rules) "critical" (pyStrip text) = false →
      catMatches (compile_regexes rules) "conversational" (pyStrip text) = false →
      match_intent (compile_regexes rules) text [] =
        (if (splitWords (pyStrip text)).length > 7 then
          ("explanation_request", "conversational", (40 : Int))
        else ("unknown", "static", (0 : Int)))) := by
  have hex : ∀ cat : String,
      catMatches (compile_regexes rules) cat (pyStrip text) = true →
      ∃ name, findCat (compile_regexes rules) cat (pyStrip text) = some name := by
    intro cat hcat
    refine Option.ne_none_iff_exists'.mp ?_
    intro hn
    rw [findCat_none_iff] at hn
    rw [hn] at hcat
    exact Bool.false_ne_true hcat
  have hno : ∀ cat : String,
      catMatches (compile_regexes rules) cat (pyStrip text) = false →
      findCat (compile_regexes rules) cat (pyStrip text) = none := by
    intro cat hcat
    exact (findCat_none_iff _ _ _).mpr hcat
  refine ⟨?_, ?_, ?_, ?_, ?_⟩
  · intro h1
    obtain ⟨name, hs⟩ := hex _ h1
    unfold match_intent
    simp [hs]
  · intro h1 h2
    obtain ⟨name, hs⟩ := hex _ h2
    unfold match_intent
    simp [hno _ h1, hs]
  · intro h1 h2 h3
    obtain ⟨name, hs⟩ := hex _ h3
    unfold match_intent
    simp [hno _ h1, hno _ h2, hs]
  · intro h1 h2 h3 h4
    obtain ⟨name, hs⟩ := hex _ h4
    unfold match_intent
    simp [hno _ h1, hno _ h2, hno _ h3, hs]
  · intro h1 h2 h3 h4
    unfold match_intent
    simp [hno _ h1, hno _ h2, hno _ h3, hno _ h4]

/-- C3 witness: a ruleset with a static and a critical group, on a text
matching both; the static category wins. -/
theorem match_intent_priority_witness :
    (match_intent (compile_regexes exIntentRules)
      "hola quiero denunciar" []).2.1 = "static" :=
  (match_intent_priority exIntentRules "hola quiero denunciar").1 (by decide)

end RouterV1
